import Mathlib

/-!
Shallow embedding of the order-processing backend (order route, admin
order-status route, and the database connection manager).

Conventions of the embedding:
* record ids (cuid strings in the source) are modelled as `Nat`;
* JS numbers holding money are modelled as `ℚ` (exact arithmetic);
* JS numbers holding stock and quantities are modelled as `ℤ`, since the
  source never constrains their sign;
* each Prisma `$transaction` callback is modelled as an atomic step: a
  `commitOk : Bool` input says whether the transaction's writes succeed,
  and a failing transaction rolls back (the state is returned unchanged),
  which is Prisma's interactive-transaction semantics;
* `Math.round` is `⌊x + 1/2⌋` (JS rounds half toward positive infinity).
-/

/-- `Math.round` on exact rationals: JS rounds half up. -/
def jsRound (x : ℚ) : ℤ := ⌊x + 1/2⌋

/-- A catalog product; the core reads `price`, `stock`, `isActive`
(`salePrice` exists on the record but the order route never reads it). -/
structure Product where
  pid : Nat
  name : String
  price : ℚ
  salePrice : Option ℚ
  stock : ℤ
  isActive : Bool
  deriving Repr, DecidableEq

/-- A shipping address; the order route only checks ownership. -/
structure Address where
  aid : Nat
  userId : Nat
  deriving Repr, DecidableEq

/-- One entry of the request's `items` array. -/
structure ReqItem where
  productId : Nat
  quantity : ℤ
  size : Option String
  color : Option String
  deriving Repr, DecidableEq

/-- A persisted order line: `price` is the snapshot of `product.price`
taken at validation time. -/
structure OrderItem where
  productId : Nat
  quantity : ℤ
  price : ℚ
  size : Option String
  color : Option String
  deriving Repr, DecidableEq

/-- Order status enum of the Prisma schema. -/
inductive OrderStatus where
  | PENDING | CONFIRMED | SHIPPED | DELIVERED | CANCELLED
  deriving Repr, DecidableEq

/-- A persisted order as created by `POST /api/orders`. -/
structure Order where
  oid : Nat
  orderNumber : String
  userId : Nat
  addressId : Nat
  totalAmount : ℚ
  shippingCost : ℚ
  taxAmount : ℚ
  paymentMethod : String
  notes : Option String
  status : OrderStatus
  orderItems : List OrderItem
  deriving Repr, DecidableEq

/-- The database state visible to the order routes. -/
structure DB where
  products : List Product
  addresses : List Address
  orders : List Order
  deriving Repr, DecidableEq

/-- `prisma.product.findUnique({ where: { id } })`. -/
def DB.findProduct (db : DB) (pid : Nat) : Option Product :=
  db.products.find? (fun p => p.pid == pid)

/-- `prisma.address.findFirst({ where: { id, userId } })`. -/
def DB.findAddress (db : DB) (aid userId : Nat) : Option Address :=
  db.addresses.find? (fun a => a.aid == aid && a.userId == userId)

/-- Body of the create-order request. -/
structure CreateReq where
  items : List ReqItem
  addressId : Nat
  paymentMethod : String
  notes : Option String
  deriving Repr, DecidableEq

/-- Error outcomes of `POST /api/orders` (each is a distinct HTTP
response in the source). -/
inductive CreateErr where
  /-- 400 from the express-validator pass. -/
  | validationError
  /-- 404 `Address not found`. -/
  | addressNotFound
  /-- 400 `Product <id> not found or inactive` (one message for both). -/
  | productNotFoundOrInactive (productId : Nat)
  /-- 400 `Insufficient stock for <name>`. -/
  | insufficientStock (name : String)
  /-- 500 `Server error` (transaction failed and rolled back). -/
  | serverError
  deriving Repr, DecidableEq

/-- The read-only validation/pricing loop of the create-order handler:
per item, `findUnique` the product, reject it if missing or inactive,
reject if `product.stock < item.quantity`, otherwise accumulate
`product.price * item.quantity` into the subtotal and push the snapshot
onto `orderItems`. -/
def validateItems (db : DB) : List ReqItem → Except CreateErr (ℚ × List OrderItem)
  | [] => .ok (0, [])
  | item :: rest =>
    match db.findProduct item.productId with
    | none => .error (.productNotFoundOrInactive item.productId)
    | some product =>
      if !product.isActive then
        .error (.productNotFoundOrInactive item.productId)
      else if product.stock < item.quantity then
        .error (.insufficientStock product.name)
      else
        match validateItems db rest with
        | .error e => .error e
        | .ok (sub, ois) =>
          .ok (product.price * (item.quantity : ℚ) + sub,
               { productId := item.productId, quantity := item.quantity,
                 price := product.price, size := item.size,
                 color := item.color } :: ois)

/-- `subtotal >= 500 ? 0 : 50`. -/
def shippingCostOf (subtotal : ℚ) : ℚ := if subtotal ≥ 500 then 0 else 50

/-- `Math.round(subtotal * 0.18 * 100) / 100` (18% GST, 2 decimals). -/
def taxAmountOf (subtotal : ℚ) : ℚ := (jsRound (subtotal * (18/100) * 100) : ℚ) / 100

/-- `notes || null`: an absent or empty string becomes `null`. -/
def jsOrNull (n : Option String) : Option String :=
  match n with
  | some s => if s = "" then none else some s
  | none => none

/-- `stock: { decrement: q }` on one product id (no-op when the id is
absent, which cannot happen after validation in a sequential run). -/
def decrementStock (ps : List Product) (pid : Nat) (q : ℤ) : List Product :=
  ps.map fun p => if p.pid == pid then { p with stock := p.stock - q } else p

/-- The transaction's stock loop: one unconditional decrement per request
item, in request order (duplicated product ids are decremented twice). -/
def decrementStocks (ps : List Product) : List ReqItem → List Product
  | [] => ps
  | item :: rest => decrementStocks (decrementStock ps item.productId item.quantity) rest

/-- `stock: { increment: q }` on one product id. -/
def incrementStock (ps : List Product) (pid : Nat) (q : ℤ) : List Product :=
  ps.map fun p => if p.pid == pid then { p with stock := p.stock + q } else p

/-- The cancel transaction's stock loop: one increment per order item. -/
def incrementStocks (ps : List Product) : List OrderItem → List Product
  | [] => ps
  | item :: rest => incrementStocks (incrementStock ps item.productId item.quantity) rest

/-- `POST /api/orders` (create order). `orderNumber` and `newOid` stand
for the generated order number and the store-assigned record id;
`commitOk` says whether the `$transaction` commits. The new order's
status is PENDING (Modelled from the spec: the Prisma schema file is not
part of the sources; the spec fixes PENDING as the initial, creation-time
status and the handler passes no `status` field). Returns the handler's
outcome together with the database state afterwards. -/
def createOrder (db : DB) (userId : Nat) (req : CreateReq)
    (orderNumber : String) (newOid : Nat) (commitOk : Bool) :
    Except CreateErr Order × DB :=
  if req.items.isEmpty || req.paymentMethod == "" then
    (.error .validationError, db)
  else
    match db.findAddress req.addressId userId with
    | none => (.error .addressNotFound, db)
    | some _ =>
      match validateItems db req.items with
      | .error e => (.error e, db)
      | .ok (subtotal, orderItems) =>
        let shippingCost := shippingCostOf subtotal
        let taxAmount := taxAmountOf subtotal
        let totalAmount := subtotal + shippingCost + taxAmount
        if commitOk then
          let newOrder : Order :=
            { oid := newOid, orderNumber := orderNumber, userId := userId,
              addressId := req.addressId, totalAmount := totalAmount,
              shippingCost := shippingCost, taxAmount := taxAmount,
              paymentMethod := req.paymentMethod, notes := jsOrNull req.notes,
              status := .PENDING, orderItems := orderItems }
          (.ok newOrder,
           { db with orders := db.orders ++ [newOrder],
                     products := decrementStocks db.products req.items })
        else
          (.error .serverError, db)

/-- Error outcomes of `PATCH /api/orders/:id/cancel`. -/
inductive CancelErr where
  /-- 404 `Order not found or cannot be cancelled` (one message for a
  missing order, a foreign order, and a non-PENDING order). -/
  | notCancellable
  /-- 500 `Server error` (transaction failed and rolled back). -/
  | serverError
  deriving Repr, DecidableEq

/-- `prisma.order.findFirst({ where: { id, userId, status: 'PENDING' } })`. -/
def DB.findCancellable (db : DB) (oid userId : Nat) : Option Order :=
  db.orders.find? (fun o => o.oid == oid && o.userId == userId
                            && o.status == .PENDING)

/-- `PATCH /api/orders/:id/cancel`: look for the caller's PENDING order,
answer 404 otherwise; then, in one transaction, set the status to
CANCELLED and increment each line item's product stock by its quantity. -/
def cancelOrder (db : DB) (oid userId : Nat) (commitOk : Bool) :
    Except CancelErr Unit × DB :=
  match db.findCancellable oid userId with
  | none => (.error .notCancellable, db)
  | some order =>
    if commitOk then
      (.ok (),
       { db with
           orders := db.orders.map fun o =>
             if o.oid == oid then { o with status := .CANCELLED } else o,
           products := incrementStocks db.products order.orderItems })
    else
      (.error .serverError, db)

/-- `PATCH /api/admin/orders/:id/status`: `prisma.order.update` writes
whatever `status` the body carries, with no precondition on the current
status; a missing id makes Prisma throw (500, nothing written). -/
def adminUpdateOrderStatus (db : DB) (oid : Nat) (status : OrderStatus) :
    Except Unit Order × DB :=
  match db.orders.find? (fun o => o.oid == oid) with
  | none => (.error (), db)
  | some order =>
    let updated := { order with status := status }
    (.ok updated,
     { db with orders := db.orders.map fun o =>
         if o.oid == oid then { o with status := status } else o })

/-!
Connection Resilience Manager (`DatabaseConnection` in the source).
`testConnection` is driven by an oracle: the list of outcomes of the
successive `$connect` + `SELECT 1` attempts (`true` = the attempt
succeeds).  A run returns `some (ok, retries, delays)` where `ok` says
whether the call returned `true` (vs. rethrew the connection error),
`retries` is the final value of `this.connectionRetries`, and `delays`
lists the backoff waits (in ms) taken before each retry, in order.
`none` means the oracle was too short for the run (not a code path).
-/

/-- `DatabaseConnection.testConnection`: on success set
`connectionRetries = 0` and return `true`; on failure, while
`connectionRetries < maxRetries`, increment the counter, wait
`2000 * connectionRetries` ms, and recurse; otherwise rethrow. -/
def testConnection (retries maxRetries : Nat) : List Bool → Option (Bool × Nat × List Nat)
  | [] => none
  | a :: rest =>
    if a then some (true, 0, [])
    else if retries < maxRetries then
      match testConnection (retries + 1) maxRetries rest with
      | none => none
      | some (ok, ret, ds) => some (ok, ret, 2000 * (retries + 1) :: ds)
    else some (false, retries, [])

/-- `DatabaseConnection.healthCheck`: if disconnected, first run
`testConnection`; then run the `SELECT 1` probe (outcome `probe`);
any thrown error is caught, marks the manager disconnected, and yields
`false`.  Returns `(result, connected, retries, delays)`. -/
def healthCheck (connected : Bool) (retries maxRetries : Nat)
    (attempts : List Bool) (probe : Bool) :
    Option (Bool × Bool × Nat × List Nat) :=
  if connected then
    some (if probe then (true, true, retries, []) else (false, false, retries, []))
  else
    match testConnection retries maxRetries attempts with
    | none => none
    | some (true, ret, ds) =>
      some (if probe then (true, true, ret, ds) else (false, false, ret, ds))
    | some (false, ret, ds) => some (false, false, ret, ds)

/-- One tick of the 30-second `setupAutoReconnect` interval: when the
manager believes it is disconnected it calls `testConnection` and
swallows any error.  Returns `(connected, retries, delays)`. -/
def reconnectTick (connected : Bool) (retries maxRetries : Nat)
    (attempts : List Bool) : Option (Bool × Nat × List Nat) :=
  if connected then some (true, retries, [])
  else
    match testConnection retries maxRetries attempts with
    | none => none
    | some (ok, ret, ds) => some (ok, ret, ds)

/-!
Order number generation:
`ORD-<Date.now()>-<Math.random().toString(36).substr(2, 6).toUpperCase()>`.
The random factor is modelled by the string `Number.prototype.toString(36)`
prints for the drawn double in `[0, 1)` (as a `List Char`): `"0"` for the
outcome `0`, and otherwise `"0."` followed by a nonempty run of base-36
digits.  `0.5` is a possible outcome and prints as `"0.i"`.
-/

/-- The 36 lowercase digits `toString(36)` draws from. -/
def base36LowerChars : List Char :=
  "0123456789abcdefghijklmnopqrstuvwxyz".toList

/-- Shape of `x.toString(36)` for a double `x` in `[0, 1)`: either the
single digit `0`, or `0.` followed by at least one base-36 digit. -/
def isToString36Output (s : List Char) : Bool :=
  s == ['0'] ||
    (s.take 2 == ['0', '.'] && !(s.drop 2).isEmpty &&
     (s.drop 2).all fun c => base36LowerChars.contains c)

/-- `.substr(2, 6).toUpperCase()` applied to the printed random value. -/
def randomSuffix (s : List Char) : List Char :=
  ((s.drop 2).take 6).map Char.toUpper

/-- The generated order number, as a character list:
`ORD-` ++ the decimal millis ++ `-` ++ the random suffix. -/
def orderNumberChars (millis : Nat) (s : List Char) : List Char :=
  "ORD-".toList ++ (Nat.repr millis).toList ++ ['-'] ++ randomSuffix s

/-- The uppercase base-36 alphabet (digits and `A`–`Z`). -/
def base36UpperChars : List Char := base36LowerChars.map Char.toUpper

/-- The subtotal measured back from persisted line items: the sum of
snapshotted unit price times quantity. -/
def subtotalOfItems (ois : List OrderItem) : ℚ :=
  (ois.map fun oi => oi.price * (oi.quantity : ℚ)).sum

/-- The total quantity a list of order items carries for one product id
(duplicated ids accumulate). -/
def itemsQtyFor (ois : List OrderItem) (pid : Nat) : ℤ :=
  (ois.map fun oi => if oi.productId == pid then oi.quantity else 0).sum

/-- Inversion for one step of the validation loop. -/
theorem validateItems_cons_ok (db : DB) (item : ReqItem) (rest : List ReqItem)
    (sub : ℚ) (ois : List OrderItem) :
    validateItems db (item :: rest) = .ok (sub, ois) ↔
      ∃ p sub' ois', db.findProduct item.productId = some p ∧
        p.isActive = true ∧ ¬(p.stock < item.quantity) ∧
        validateItems db rest = .ok (sub', ois') ∧
        sub = p.price * (item.quantity : ℚ) + sub' ∧
        ois = { productId := item.productId, quantity := item.quantity,
                price := p.price, size := item.size,
                color := item.color } :: ois' := by
  constructor
  · intro h
    cases hp : db.findProduct item.productId with
    | none => simp [validateItems, hp] at h
    | some p =>
      rw [validateItems, hp] at h
      by_cases hact : p.isActive
      · simp only [hact, Bool.not_true, if_false, Bool.false_eq_true] at h
        by_cases hstock : p.stock < item.quantity
        · simp [hstock] at h
        · simp only [hstock, if_false] at h
          cases hv : validateItems db rest with
          | error e => rw [hv] at h; cases h
          | ok pr =>
            obtain ⟨sub', ois'⟩ := pr
            rw [hv] at h
            refine ⟨p, sub', ois', rfl, hact, hstock, rfl, ?_, ?_⟩ <;>
              cases h <;> rfl
      · simp only [Bool.not_eq_true] at hact
        simp [hact] at h
  · rintro ⟨p, sub', ois', hp, hact, hstock, hv, rfl, rfl⟩
    rw [validateItems, hp]
    simp [hact, hstock, hv]

/-- Base case of the validation loop. -/
theorem validateItems_nil_ok (db : DB) (sub : ℚ) (ois : List OrderItem) :
    validateItems db [] = .ok (sub, ois) ↔ sub = 0 ∧ ois = [] := by
  constructor
  · intro h; cases h; exact ⟨rfl, rfl⟩
  · rintro ⟨rfl, rfl⟩; rfl

/-- The subtotal the loop returns is the sum of snapshotted unit prices
times quantities over the produced line items. -/
theorem validateItems_subtotal (db : DB) :
    ∀ (items : List ReqItem) (sub : ℚ) (ois : List OrderItem),
    validateItems db items = .ok (sub, ois) → sub = subtotalOfItems ois := by
  intro items
  induction items with
  | nil =>
    intro sub ois h
    obtain ⟨rfl, rfl⟩ := (validateItems_nil_ok db sub ois).1 h
    simp [subtotalOfItems]
  | cons item rest ih =>
    intro sub ois h
    obtain ⟨p, sub', ois', _, _, _, hv, rfl, rfl⟩ :=
      (validateItems_cons_ok db item rest sub ois).1 h
    simp [subtotalOfItems, ih sub' ois' hv]

/-- Every line item the loop produces snapshots the base `price` field of
the product looked up under its id, and the product was active with
`stock` not below the requested quantity. -/
theorem validateItems_snapshot (db : DB) :
    ∀ (items : List ReqItem) (sub : ℚ) (ois : List OrderItem),
    validateItems db items = .ok (sub, ois) →
    ∀ oi ∈ ois, ∃ p, db.findProduct oi.productId = some p ∧
      oi.price = p.price ∧ p.isActive = true ∧ ¬(p.stock < oi.quantity) := by
  intro items
  induction items with
  | nil =>
    intro sub ois h
    obtain ⟨rfl, rfl⟩ := (validateItems_nil_ok db sub ois).1 h
    intro oi hoi; cases hoi
  | cons item rest ih =>
    intro sub ois h
    obtain ⟨p, sub', ois', hp, hact, hstock, hv, rfl, rfl⟩ :=
      (validateItems_cons_ok db item rest sub ois).1 h
    intro oi hoi
    rcases List.mem_cons.1 hoi with rfl | hmem
    · exact ⟨p, hp, rfl, hact, hstock⟩
    · exact ih sub' ois' hv oi hmem

/-- Success inversion for the create-order handler. -/
theorem createOrder_ok_iff (db : DB) (uid : Nat) (req : CreateReq)
    (onum : String) (noid : Nat) (c : Bool) (o : Order) :
    (createOrder db uid req onum noid c).1 = .ok o ↔
      (req.items.isEmpty || req.paymentMethod == "") = false ∧
      (db.findAddress req.addressId uid).isSome = true ∧ c = true ∧
      ∃ sub ois, validateItems db req.items = .ok (sub, ois) ∧
        o = { oid := noid, orderNumber := onum, userId := uid,
              addressId := req.addressId,
              totalAmount := sub + shippingCostOf sub + taxAmountOf sub,
              shippingCost := shippingCostOf sub,
              taxAmount := taxAmountOf sub,
              paymentMethod := req.paymentMethod,
              notes := jsOrNull req.notes,
              status := .PENDING, orderItems := ois } := by
  constructor
  · intro h
    by_cases hA : (req.items.isEmpty || req.paymentMethod == "") = true
    · simp [createOrder, hA] at h
    · simp only [Bool.not_eq_true] at hA
      cases hF : db.findAddress req.addressId uid with
      | none => simp [createOrder, hA, hF] at h
      | some a =>
        cases hV : validateItems db req.items with
        | error e => simp [createOrder, hA, hF, hV] at h
        | ok pr =>
          obtain ⟨sub, ois⟩ := pr
          cases c with
          | false => simp [createOrder, hA, hF, hV] at h
          | true =>
            simp only [createOrder, hA, hF, hV, Bool.false_eq_true,
                       if_false, if_true] at h
            refine ⟨hA, by simp [hF], rfl, sub, ois, rfl, ?_⟩
            cases h; rfl
  · rintro ⟨hA, hF, rfl, sub, ois, hV, rfl⟩
    rw [Option.isSome_iff_exists] at hF
    obtain ⟨a, hF⟩ := hF
    simp [createOrder, hA, hF, hV]

/-- On success the handler appends exactly the returned order and runs
the stock-decrement loop over the request's items; nothing else moves. -/
theorem createOrder_ok_state (db : DB) (uid : Nat) (req : CreateReq)
    (onum : String) (noid : Nat) (c : Bool) (o : Order)
    (h : (createOrder db uid req onum noid c).1 = .ok o) :
    (createOrder db uid req onum noid c).2 =
      { db with orders := db.orders ++ [o],
                products := decrementStocks db.products req.items } := by
  obtain ⟨hA, hF, rfl, sub, ois, hV, rfl⟩ :=
    (createOrder_ok_iff db uid req onum noid c o).1 h
  rw [Option.isSome_iff_exists] at hF
  obtain ⟨a, hF⟩ := hF
  simp [createOrder, hA, hF, hV]

/-- Address 1, owned by user 1: fixture for the concrete runs below. -/
def sampleAddress : Address := { aid := 1, userId := 1 }

/-- Catalog fixture for the duplicate-line-item run: one active product
with stock 5. -/
def dupDB : DB :=
  { products := [{ pid := 1, name := "P1", price := 100, salePrice := none,
                   stock := 5, isActive := true }],
    addresses := [sampleAddress], orders := [] }

/-- A cart naming product 1 twice, quantity 3 each (6 > stock 5). -/
def dupReq : CreateReq :=
  { items := [{ productId := 1, quantity := 3, size := none, color := none },
              { productId := 1, quantity := 3, size := none, color := none }],
    addressId := 1, paymentMethod := "cod", notes := none }

/-- C1: the claim (and the spec's stock-non-negativity invariant) fails
on the code.  The per-item check compares each line item's quantity to
the stock read at validation time and never aggregates duplicated
product ids, and the committed decrements are unconditional: against
stock 5, a cart holding product 1 twice with quantity 3 passes both
checks (3 < 5 holds for each line separately), the order is created, and
the two decrements leave stock −1 < 0.  No insufficient-stock error is
raised. -/
theorem createOrder_duplicate_line_items_oversell :
    dupDB.products.map Product.stock = [5] ∧
    (createOrder dupDB 1 dupReq "ORD-1-ABCDEF" 1 true).1.isOk = true ∧
    (createOrder dupDB 1 dupReq "ORD-1-ABCDEF" 1 true).2.products.map
      Product.stock = [-1] := by
  exact ⟨rfl, rfl, rfl⟩

/-- C2: whenever the create-order handler answers with an error — the
express-validator 400, the address-ownership 404, a product/stock 400
from the validation pass, or a failed commit transaction — the database
state afterwards is exactly the state before: no Order, no OrderItem and
no stock change from the call is observable. -/
theorem createOrder_error_rollback (db : DB) (uid : Nat) (req : CreateReq)
    (onum : String) (noid : Nat) (c : Bool) (e : CreateErr)
    (h : (createOrder db uid req onum noid c).1 = .error e) :
    (createOrder db uid req onum noid c).2 = db := by
  by_cases hA : (req.items.isEmpty || req.paymentMethod == "") = true
  · simp [createOrder, hA]
  · simp only [Bool.not_eq_true] at hA
    cases hF : db.findAddress req.addressId uid with
    | none => simp [createOrder, hA, hF]
    | some a =>
      cases hV : validateItems db req.items with
      | error e2 => simp [createOrder, hA, hF, hV]
      | ok pr =>
        obtain ⟨sub, ois⟩ := pr
        cases c with
        | false => simp [createOrder, hA, hF, hV]
        | true => simp [createOrder, hA, hF, hV] at h

/-- Witness for C2: a concrete failing call (no address in the store)
leaves the concrete database untouched. -/
theorem createOrder_error_rollback_witness :
    (createOrder { products := [], addresses := [], orders := [] } 1
      dupReq "N" 1 true).1 = .error .addressNotFound ∧
    (createOrder { products := [], addresses := [], orders := [] } 1
      dupReq "N" 1 true).2 = { products := [], addresses := [], orders := [] } := by
  exact ⟨rfl, createOrder_error_rollback _ 1 dupReq "N" 1 true .addressNotFound rfl⟩

/-- C8: the handler never checks quantity positivity.  With the items
array non-empty, a payment method present, an owned address, and an
active product with non-negative stock, an item of quantity `q ≤ 0`
passes the stock check (`stock < q` cannot hold), the order and its line
item are committed with that quantity, and the unconditional decrement
by `q` leaves stock `stock - q`, which is no smaller — and for `q < 0`
strictly larger — than before. -/
theorem createOrder_accepts_nonpositive_quantity
    (db : DB) (uid aid noid : Nat) (pm : String) (notes : Option String)
    (onum : String) (pid : Nat) (q : ℤ) (size color : Option String)
    (p : Product)
    (hq : q ≤ 0) (hpm : pm ≠ "")
    (ha : (db.findAddress aid uid).isSome = true)
    (hp : db.findProduct pid = some p)
    (hact : p.isActive = true) (hs : 0 ≤ p.stock) :
    ∃ o, (createOrder db uid
        { items := [{ productId := pid, quantity := q, size := size, color := color }],
          addressId := aid, paymentMethod := pm, notes := notes }
        onum noid true).1 = .ok o ∧
      o.orderItems = [{ productId := pid, quantity := q, price := p.price,
                        size := size, color := color }] ∧
      (createOrder db uid
        { items := [{ productId := pid, quantity := q, size := size, color := color }],
          addressId := aid, paymentMethod := pm, notes := notes }
        onum noid true).2.products =
        db.products.map (fun p2 => if p2.pid == pid then
          { p2 with stock := p2.stock - q } else p2) ∧
      p.stock ≤ p.stock - q ∧ (q < 0 → p.stock < p.stock - q) := by
  have hstock : ¬(p.stock < q) := by omega
  have hv : validateItems db
      [{ productId := pid, quantity := q, size := size, color := color }] =
      .ok (p.price * (q : ℚ) + 0,
           [{ productId := pid, quantity := q, price := p.price,
              size := size, color := color }]) := by
    simp [validateItems, hp, hact, hstock]
  have hok := (createOrder_ok_iff db uid
      { items := [{ productId := pid, quantity := q, size := size, color := color }],
        addressId := aid, paymentMethod := pm, notes := notes }
      onum noid true _).2 ⟨by simp [hpm], ha, rfl, _, _, hv, rfl⟩
  refine ⟨_, hok, rfl, ?_, by omega, fun hlt => by omega⟩
  rw [createOrder_ok_state _ _ _ _ _ _ _ hok]
  simp [decrementStocks, decrementStock]

/-- Witness for C8: a concrete call with quantity −2 against stock 5
succeeds and raises the stock. -/
theorem createOrder_accepts_nonpositive_quantity_witness :
    ∃ o, (createOrder dupDB 1
        { items := [{ productId := 1, quantity := -2, size := none, color := none }],
          addressId := 1, paymentMethod := "cod", notes := none }
        "N" 3 true).1 = .ok o ∧
      o.orderItems = [{ productId := 1, quantity := -2, price := 100,
                        size := none, color := none }] ∧
      (createOrder dupDB 1
        { items := [{ productId := 1, quantity := -2, size := none, color := none }],
          addressId := 1, paymentMethod := "cod", notes := none }
        "N" 3 true).2.products =
        dupDB.products.map (fun p2 => if p2.pid == 1 then
          { p2 with stock := p2.stock - (-2) } else p2) ∧
      (5 : ℤ) ≤ 5 - (-2) ∧ ((-2 : ℤ) < 0 → (5 : ℤ) < 5 - (-2)) :=
  createOrder_accepts_nonpositive_quantity dupDB 1 1 3 "cod" none "N" 1 (-2)
    none none _ (by decide) (by decide) (by rfl) (by rfl) (by rfl) (by decide)

/-- Catalog fixture for the pricing and cancellation runs: one active
product, price 100, stock 10. -/
def priceDB : DB :=
  { products := [{ pid := 1, name := "P", price := 100, salePrice := none,
                   stock := 10, isActive := true }],
    addresses := [sampleAddress], orders := [] }

/-- A one-line cart: product 1, quantity 3. -/
def oneItemReq : CreateReq :=
  { items := [{ productId := 1, quantity := 3, size := none, color := none }],
    addressId := 1, paymentMethod := "cod", notes := none }

/-- The order the handler materializes for `oneItemReq` against
`priceDB`: subtotal 300, shipping 50, tax 54, total 404. -/
def pricedOrder : Order :=
  { oid := 7, orderNumber := "N", userId := 1, addressId := 1,
    totalAmount := 404, shippingCost := 50, taxAmount := 54,
    paymentMethod := "cod", notes := none, status := .PENDING,
    orderItems := [{ productId := 1, quantity := 3, price := 100,
                     size := none, color := none }] }

/-- C3: every successful creation prices the order from the subtotal
`X = Σ (snapshotted unit price × quantity)` over its line items:
shipping is 0 exactly when `X ≥ 500` and 50 otherwise, tax is
`X × 0.18` rounded to 2 decimals (`round(X·18·100/100)/100`), and the
total is their sum; in particular subtotal 1000 prices as (0, 180, 1180)
and subtotal 300 as (50, 54, 404). -/
theorem createOrder_pricing (db : DB) (uid : Nat) (req : CreateReq)
    (onum : String) (noid : Nat) (c : Bool) (o : Order)
    (h : (createOrder db uid req onum noid c).1 = .ok o) :
    (o.shippingCost = if subtotalOfItems o.orderItems ≥ 500 then 0 else 50) ∧
    o.taxAmount =
      (jsRound (subtotalOfItems o.orderItems * (18/100) * 100) : ℚ) / 100 ∧
    o.totalAmount = subtotalOfItems o.orderItems + o.shippingCost + o.taxAmount ∧
    shippingCostOf 1000 = 0 ∧ taxAmountOf 1000 = 180 ∧
    (1000 + shippingCostOf 1000 + taxAmountOf 1000 : ℚ) = 1180 ∧
    shippingCostOf 300 = 50 ∧ taxAmountOf 300 = 54 ∧
    (300 + shippingCostOf 300 + taxAmountOf 300 : ℚ) = 404 := by
  obtain ⟨hA, hF, rfl, sub, ois, hV, rfl⟩ :=
    (createOrder_ok_iff db uid req onum noid c o).1 h
  have hsub := validateItems_subtotal db req.items sub ois hV
  refine ⟨?_, ?_, ?_, ?_, ?_, ?_, ?_, ?_, ?_⟩
  · simp only [← hsub, shippingCostOf]
  · simp only [← hsub, taxAmountOf]
  · simp only [← hsub]
  · norm_num [shippingCostOf]
  · norm_num [taxAmountOf, jsRound]
  · norm_num [shippingCostOf, taxAmountOf, jsRound]
  · norm_num [shippingCostOf]
  · norm_num [taxAmountOf, jsRound]
  · norm_num [shippingCostOf, taxAmountOf, jsRound]

/-- Witness for C3: the concrete run with subtotal 300 succeeds and its
shipping cost satisfies the priced relation. -/
theorem createOrder_pricing_witness :
    (createOrder priceDB 1 oneItemReq "N" 7 true).1 = .ok pricedOrder ∧
    (pricedOrder.shippingCost =
      if subtotalOfItems pricedOrder.orderItems ≥ 500 then 0 else 50) := by
  have h : (createOrder priceDB 1 oneItemReq "N" 7 true).1 = .ok pricedOrder := by
    simp [createOrder, validateItems, priceDB, oneItemReq, sampleAddress,
          DB.findAddress, DB.findProduct, shippingCostOf, taxAmountOf,
          jsRound, jsOrNull, pricedOrder]
    norm_num
  exact ⟨h, (createOrder_pricing priceDB 1 oneItemReq "N" 7 true pricedOrder h).1⟩

/-- Overriding every product's `salePrice` field (and nothing else). -/
def setSalePrices (f : Nat → Option ℚ) (db : DB) : DB :=
  { db with products := db.products.map fun p => { p with salePrice := f p.pid } }

/-- Product lookup commutes with a salePrice override. -/
theorem findProduct_setSalePrices (f : Nat → Option ℚ) (db : DB) (pid : Nat) :
    (setSalePrices f db).findProduct pid =
      (db.findProduct pid).map fun p => { p with salePrice := f p.pid } := by
  unfold setSalePrices DB.findProduct
  simp only [List.find?_map]
  rfl

/-- The validation/pricing loop never reads `salePrice`. -/
theorem validateItems_setSalePrices (f : Nat → Option ℚ) (db : DB) :
    ∀ items : List ReqItem,
      validateItems (setSalePrices f db) items = validateItems db items := by
  intro items
  induction items with
  | nil => rfl
  | cons item rest ih =>
    rw [validateItems, validateItems, findProduct_setSalePrices f db]
    cases hp : db.findProduct item.productId with
    | none => rfl
    | some p =>
      simp only [Option.map_some']
      rw [ih]

/-- C10: line items are priced from the product's base `price` field.
On any successful creation each persisted line item's snapshot equals
the `price` of the product found under its id (so its subtotal
contribution is `price × quantity`), and the handler's response is
unchanged under arbitrary rewrites of every product's `salePrice`:
the sale price is never consulted. -/
theorem createOrder_uses_base_price (db : DB) (uid : Nat) (req : CreateReq)
    (onum : String) (noid : Nat) (c : Bool) (f : Nat → Option ℚ) :
    (∀ o, (createOrder db uid req onum noid c).1 = .ok o →
      ∀ oi ∈ o.orderItems, ∃ p, db.findProduct oi.productId = some p ∧
        oi.price = p.price ∧
        oi.price * (oi.quantity : ℚ) = p.price * (oi.quantity : ℚ)) ∧
    (createOrder (setSalePrices f db) uid req onum noid c).1 =
      (createOrder db uid req onum noid c).1 := by
  constructor
  · intro o h
    obtain ⟨hA, hF, rfl, sub, ois, hV, rfl⟩ :=
      (createOrder_ok_iff db uid req onum noid c o).1 h
    intro oi hoi
    obtain ⟨p, hp, hprice, _, _⟩ :=
      validateItems_snapshot db req.items sub ois hV oi hoi
    exact ⟨p, hp, hprice, by rw [hprice]⟩
  · have hAddr : (setSalePrices f db).findAddress req.addressId uid =
        db.findAddress req.addressId uid := rfl
    unfold createOrder
    rw [hAddr, validateItems_setSalePrices f db]
    by_cases hA : (req.items.isEmpty || req.paymentMethod == "") = true
    · simp [hA]
    · simp only [Bool.not_eq_true] at hA
      simp only [hA, Bool.false_eq_true, if_false]
      cases db.findAddress req.addressId uid with
      | none => rfl
      | some a =>
        cases validateItems db req.items with
        | error e => rfl
        | ok pr =>
          obtain ⟨sub, ois⟩ := pr
          cases c <;> rfl

/-- Witness for C10: overriding the sale price in the concrete pricing
fixture leaves the handler's successful response unchanged, and its line
item snapshots the base price 100. -/
theorem createOrder_uses_base_price_witness :
    (createOrder (setSalePrices (fun _ => some 1) priceDB) 1 oneItemReq
        "N" 7 true).1 =
      (createOrder priceDB 1 oneItemReq "N" 7 true).1 ∧
    (∃ p, priceDB.findProduct 1 = some p ∧ (100 : ℚ) = p.price ∧
      (100 : ℚ) * ((3 : ℤ) : ℚ) = p.price * ((3 : ℤ) : ℚ)) := by
  refine ⟨(createOrder_uses_base_price priceDB 1 oneItemReq "N" 7 true
    (fun _ => some 1)).2, ?_⟩
  have h : (createOrder priceDB 1 oneItemReq "N" 7 true).1 = .ok pricedOrder := by
    simp [createOrder, validateItems, priceDB, oneItemReq, sampleAddress,
          DB.findAddress, DB.findProduct, shippingCostOf, taxAmountOf,
          jsRound, jsOrNull, pricedOrder]
    norm_num
  exact (createOrder_uses_base_price priceDB 1 oneItemReq "N" 7 true
    (fun _ => some 1)).1 pricedOrder h
    { productId := 1, quantity := 3, price := 100, size := none, color := none }
    (by simp [pricedOrder])

/-- Running the increment loop adds, to each product, the total quantity
the order items carry for its id (duplicated ids accumulate). -/
theorem incrementStocks_eq (ois : List OrderItem) :
    ∀ ps : List Product, incrementStocks ps ois =
      ps.map fun p => { p with stock := p.stock + itemsQtyFor ois p.pid } := by
  induction ois with
  | nil =>
    intro ps
    have hfun : (fun p : Product =>
        { p with stock := p.stock + itemsQtyFor [] p.pid }) = fun p => p := by
      funext p; cases p; simp [itemsQtyFor]
    rw [incrementStocks, hfun, List.map_id']
  | cons oi rest ih =>
    intro ps
    rw [incrementStocks, ih, incrementStock, List.map_map]
    congr 1
    funext p
    by_cases h : p.pid = oi.productId
    · have h1 : (p.pid == oi.productId) = true := beq_iff_eq.mpr h
      have h2 : (oi.productId == p.pid) = true := beq_iff_eq.mpr h.symm
      simp [Function.comp, h1, h2, itemsQtyFor, add_assoc, h]
    · have h1 : (p.pid == oi.productId) = false := by
        simp [beq_eq_false_iff_ne, h]
      have h2 : (oi.productId == p.pid) = false := by
        simp [beq_eq_false_iff_ne, Ne.symm h]
      simp [Function.comp, h1, h2, itemsQtyFor]
      intro hh
      exact absurd hh.symm h

/-- C4: cancellation succeeds exactly when an order with that id exists,
belongs to the caller, and is PENDING; otherwise the single uniform
not-cancellable error is answered and nothing changes.  On success the
status becomes CANCELLED and every product's stock grows by the total
quantity the order's line items carry for it, atomically.  Concretely:
creating `[(P1, qty 3)]` against stock 10 leaves 7; cancelling restores
10 and sets CANCELLED; cancelling again fails. -/
theorem cancelOrder_spec :
    (∀ (db : DB) (oid uid : Nat),
      ((cancelOrder db oid uid true).1 = .ok ()) ↔
        ∃ o ∈ db.orders, o.oid = oid ∧ o.userId = uid ∧
          o.status = .PENDING) ∧
    (∀ (db : DB) (oid uid : Nat) (c : Bool),
      db.findCancellable oid uid = none →
        (cancelOrder db oid uid c).1 = .error .notCancellable ∧
        (cancelOrder db oid uid c).2 = db) ∧
    (∀ (db : DB) (oid uid : Nat) (o : Order),
      db.findCancellable oid uid = some o →
        (cancelOrder db oid uid true).2.products =
          db.products.map (fun p =>
            { p with stock := p.stock + itemsQtyFor o.orderItems p.pid }) ∧
        ∀ o2 ∈ (cancelOrder db oid uid true).2.orders,
          o2.oid = oid → o2.status = .CANCELLED) ∧
    ((createOrder priceDB 1 oneItemReq "N" 7 true).2.products.map
        Product.stock = [7] ∧
      (cancelOrder (createOrder priceDB 1 oneItemReq "N" 7 true).2
        7 1 true).1 = .ok () ∧
      (cancelOrder (createOrder priceDB 1 oneItemReq "N" 7 true).2
        7 1 true).2.products.map Product.stock = [10] ∧
      (cancelOrder (createOrder priceDB 1 oneItemReq "N" 7 true).2
        7 1 true).2.orders.map Order.status = [.CANCELLED] ∧
      (cancelOrder (cancelOrder (createOrder priceDB 1 oneItemReq "N" 7
        true).2 7 1 true).2 7 1 true).1 = .error .notCancellable) := by
  refine ⟨?_, ?_, ?_, rfl, rfl, rfl, rfl, rfl⟩
  · intro db oid uid
    constructor
    · intro h
      cases hf : db.findCancellable oid uid with
      | none => simp [cancelOrder, hf] at h
      | some o =>
        have hm := List.mem_of_find?_eq_some hf
        have hp := List.find?_some hf
        simp only [Bool.and_eq_true, beq_iff_eq] at hp
        exact ⟨o, hm, hp.1.1, hp.1.2, hp.2⟩
    · rintro ⟨o, hm, h1, h2, h3⟩
      have hs : (db.findCancellable oid uid).isSome := by
        rw [DB.findCancellable, List.find?_isSome]
        exact ⟨o, hm, by simp [h1, h2, h3]⟩
      obtain ⟨o2, ho2⟩ := Option.isSome_iff_exists.mp hs
      simp [cancelOrder, ho2]
  · intro db oid uid c hf
    simp [cancelOrder, hf]
  · intro db oid uid o hf
    constructor
    · simp only [cancelOrder, hf]
      exact incrementStocks_eq o.orderItems db.products
    · intro o2 hmem h2
      simp only [cancelOrder, hf] at hmem
      obtain ⟨o3, _, ho3⟩ := List.mem_map.mp hmem
      by_cases hid : (o3.oid == oid) = true
      · rw [if_pos hid] at ho3
        rw [← ho3]
      · rw [if_neg (by simp [hid])] at ho3
        subst ho3
        exact absurd (beq_iff_eq.mpr h2) hid

/-- The state after `pricedOrder` exists (stock already decremented to
7), directly constructed: fixture for the cancellation witness. -/
def cancelFixtureDB : DB :=
  { products := [{ pid := 1, name := "P", price := 100, salePrice := none,
                   stock := 7, isActive := true }],
    addresses := [sampleAddress], orders := [pricedOrder] }

/-- Witness for C4: the concrete PENDING order of `cancelFixtureDB` is
cancellable. -/
theorem cancelOrder_spec_witness :
    (cancelOrder cancelFixtureDB 7 1 true).1 = .ok () :=
  (cancelOrder_spec.1 cancelFixtureDB 7 1).2
    ⟨pricedOrder, by simp [cancelFixtureDB], rfl, rfl, rfl⟩

/-- A store holding one CANCELLED order (id 1): fixture refuting the
terminality of CANCELLED under the admin status route. -/
def cancelledDB : DB :=
  { products := [], addresses := [sampleAddress],
    orders := [{ pricedOrder with oid := 1, status := .CANCELLED }] }

/-- C6 counterexample: `PATCH /api/admin/orders/:id/status` writes the
requested status unconditionally, so order 1, currently CANCELLED, is
moved to SHIPPED — an order does transition out of CANCELLED under a
core operation, refuting terminality as claimed. -/
theorem adminUpdateOrderStatus_exits_cancelled :
    cancelledDB.orders.map Order.status = [.CANCELLED] ∧
    (adminUpdateOrderStatus cancelledDB 1 .SHIPPED).1.isOk = true ∧
    (adminUpdateOrderStatus cancelledDB 1 .SHIPPED).2.orders.map
      Order.status = [.SHIPPED] :=
  ⟨rfl, rfl, rfl⟩

/-- C6 amended: under the user-facing operations CANCELLED is entered
only from PENDING, only by the owning user, and never left — a
successful `cancelOrder` found a PENDING order of the caller, and
`createOrder` only creates PENDING orders — but the admin status route
overwrites any current status with any requested one (including away
from CANCELLED), so CANCELLED is not terminal under admin updates. -/
theorem cancelled_only_from_pending_user_ops :
    (∀ (db : DB) (oid uid : Nat) (c : Bool),
      (cancelOrder db oid uid c).1 = .ok () →
        ∃ o ∈ db.orders, o.oid = oid ∧ o.userId = uid ∧
          o.status = .PENDING) ∧
    (∀ (db : DB) (uid : Nat) (req : CreateReq) (onum : String)
        (noid : Nat) (c : Bool) (o : Order),
      (createOrder db uid req onum noid c).1 = .ok o →
        o.status = .PENDING) ∧
    (∀ (db : DB) (oid : Nat) (st : OrderStatus) (o : Order),
      db.orders.find? (fun o2 => o2.oid == oid) = some o →
        (adminUpdateOrderStatus db oid st).1 = .ok { o with status := st }) := by
  refine ⟨?_, ?_, ?_⟩
  · intro db oid uid c h
    cases hf : db.findCancellable oid uid with
    | none => simp [cancelOrder, hf] at h
    | some o =>
      have hm := List.mem_of_find?_eq_some hf
      have hp := List.find?_some hf
      simp only [Bool.and_eq_true, beq_iff_eq] at hp
      exact ⟨o, hm, hp.1.1, hp.1.2, hp.2⟩
  · intro db uid req onum noid c o h
    obtain ⟨_, _, rfl, sub, ois, _, rfl⟩ :=
      (createOrder_ok_iff db uid req onum noid c o).1 h
    rfl
  · intro db oid st o hf
    simp [adminUpdateOrderStatus, hf]

/-- Witness for the amended C6: the concrete CANCELLED order of
`cancelledDB` is rewritten to SHIPPED by the admin route. -/
theorem cancelled_only_from_pending_user_ops_witness :
    (adminUpdateOrderStatus cancelledDB 1 .SHIPPED).1 =
      .ok { { pricedOrder with oid := 1, status := .CANCELLED } with
            status := .SHIPPED } :=
  cancelled_only_from_pending_user_ops.2.2 cancelledDB 1 .SHIPPED
    { pricedOrder with oid := 1, status := .CANCELLED } rfl

/-- C5 counterexample: `Math.random()` may draw exactly `0.5`, which
`toString(36)` prints as `0.i`; `substr(2, 6).toUpperCase()` then yields
the single character `I`, so the suffix is not 6 characters long (and
the drawn value `0` prints as `0`, giving an empty suffix). -/
theorem orderNumber_suffix_can_be_short :
    isToString36Output ['0', '.', 'i'] = true ∧
    randomSuffix ['0', '.', 'i'] = ['I'] ∧
    (randomSuffix ['0', '.', 'i']).length = 1 ∧
    orderNumberChars 1700000000000 ['0', '.', 'i'] =
      "ORD-1700000000000-I".toList ∧
    isToString36Output ['0'] = true ∧
    randomSuffix ['0'] = [] := by
  refine ⟨rfl, rfl, rfl, ?_, rfl, rfl⟩
  decide

/-- C5 amended: every generated order number is
`ORD-<millis>-<suffix>` where the suffix consists of *at most* 6
uppercase base-36 characters; it has exactly 6 characters precisely when
the printed random value has at least 8 characters (6 or more fractional
base-36 digits), and is shorter for the short, terminating expansions
the random source can also produce. -/
theorem orderNumber_suffix_shape (millis : Nat) (s : List Char)
    (h : isToString36Output s = true) :
    orderNumberChars millis s =
      "ORD-".toList ++ (Nat.repr millis).toList ++ ['-'] ++ randomSuffix s ∧
    (randomSuffix s).length ≤ 6 ∧
    (∀ c ∈ randomSuffix s, c ∈ base36UpperChars) ∧
    ((randomSuffix s).length = 6 ↔ 8 ≤ s.length) := by
  have hlen : (randomSuffix s).length = min 6 (s.length - 2) := by
    simp [randomSuffix]
  refine ⟨rfl, by omega, ?_, by omega⟩
  intro c hc
  simp only [randomSuffix, List.mem_map] at hc
  obtain ⟨d, hd, rfl⟩ := hc
  have hd2 : d ∈ s.drop 2 := List.mem_of_mem_take hd
  have hdlow : d ∈ base36LowerChars := by
    simp only [isToString36Output, Bool.or_eq_true, Bool.and_eq_true,
      beq_iff_eq, List.all_eq_true] at h
    rcases h with h0 | ⟨⟨_, _⟩, hall⟩
    · rw [h0] at hd2; cases hd2
    · have := hall d hd2
      simpa [List.contains_eq_any_beq] using this
  rw [base36UpperChars]
  exact List.mem_map.mpr ⟨d, hdlow, rfl⟩

/-- Witness for the amended C5: the outcome `0.i` satisfies the shape
hypothesis and the bound. -/
theorem orderNumber_suffix_shape_witness :
    isToString36Output ['0', '.', 'i'] = true ∧
    (randomSuffix ['0', '.', 'i']).length ≤ 6 :=
  ⟨by decide, (orderNumber_suffix_shape 1700000000000 ['0', '.', 'i']
      (by decide)).2.1⟩

/-- Full description of a `testConnection` run started at any counter
value `retries ≤ maxRetries`: the backoff delays are
`2000·(retries+1), 2000·(retries+2), …`; at most `maxRetries − retries`
retries happen; a `true` return resets the counter to 0; a rethrow
leaves the counter at `maxRetries` having consumed every retry. -/
theorem testConnection_run (maxRetries : Nat) :
    ∀ (attempts : List Bool) (retries : Nat) (ok : Bool) (ret : Nat)
      (ds : List Nat),
      retries ≤ maxRetries →
      testConnection retries maxRetries attempts = some (ok, ret, ds) →
      ds = (List.range ds.length).map (fun k => 2000 * (retries + k + 1)) ∧
      ds.length ≤ maxRetries - retries ∧
      (ok = true → ret = 0) ∧
      (ok = false → ret = maxRetries ∧ ds.length = maxRetries - retries) := by
  intro attempts
  induction attempts with
  | nil => intro retries ok ret ds hle h; cases h
  | cons a rest ih =>
    intro retries ok ret ds hle h
    rw [testConnection] at h
    cases a with
    | true =>
      simp only [if_true] at h
      obtain ⟨h5, h6, h7⟩ : true = ok ∧ 0 = ret ∧ ([] : List Nat) = ds := by
        cases h; exact ⟨rfl, rfl, rfl⟩
      subst h5; subst h6; subst h7
      refine ⟨rfl, by simp, fun _ => rfl, fun hf => by cases hf⟩
    | false =>
      simp only [Bool.false_eq_true, if_false] at h
      by_cases hr : retries < maxRetries
      · rw [if_pos hr] at h
        cases hrec : testConnection (retries + 1) maxRetries rest with
        | none => rw [hrec] at h; cases h
        | some t =>
          obtain ⟨ok2, ret2, ds2⟩ := t
          rw [hrec] at h
          obtain ⟨h5, h6, h7⟩ :
              ok2 = ok ∧ ret2 = ret ∧ 2000 * (retries + 1) :: ds2 = ds := by
            cases h; exact ⟨rfl, rfl, rfl⟩
          subst h5; subst h6; subst h7
          obtain ⟨h1, h2, h3, h4⟩ := ih _ _ _ _ (by omega) hrec
          refine ⟨?_, by simp only [List.length_cons]; omega, h3,
                  fun hf => ⟨(h4 hf).1, by
                    have h9 := (h4 hf).2
                    simp only [List.length_cons]; omega⟩⟩
          rw [List.length_cons, List.range_succ_eq_map, List.map_cons,
              List.map_map]
          rw [show List.map ((fun k => 2000 * (retries + k + 1)) ∘ Nat.succ)
                (List.range ds2.length) =
              List.map (fun k => 2000 * (retries + 1 + k + 1))
                (List.range ds2.length) from
            List.map_congr_left fun k _ => by
              simp only [Function.comp, Nat.succ_eq_add_one]; ring]
          rw [← h1]
      · rw [if_neg hr] at h
        obtain ⟨h5, h6, h7⟩ : false = ok ∧ retries = ret ∧ ([] : List Nat) = ds := by
          cases h; exact ⟨rfl, rfl, rfl⟩
        subst h5; subst h6; subst h7
        refine ⟨rfl, by simp, fun ht => (Bool.false_ne_true ht).elim,
                fun _ => ⟨by omega, by simp; omega⟩⟩

/-- C7: a `testConnection` call started with a fresh counter retries at
most 5 times, waiting `2000·k` ms before the `k`-th retry; when it
returns `true` the counter has been reset to 0, and when every retry is
exhausted (5 delays taken) the error is rethrown to the caller rather
than swallowed. -/
theorem testConnection_retry_policy (attempts : List Bool) (ok : Bool)
    (ret : Nat) (ds : List Nat)
    (h : testConnection 0 5 attempts = some (ok, ret, ds)) :
    ds.length ≤ 5 ∧
    ds = (List.range ds.length).map (fun k => 2000 * (k + 1)) ∧
    (ok = true → ret = 0) ∧
    (ok = false → ds.length = 5 ∧ ret = 5) := by
  obtain ⟨h1, h2, h3, h4⟩ := testConnection_run 5 attempts 0 ok ret ds
    (by omega) h
  refine ⟨by omega, ?_, h3, fun hf => ⟨(h4 hf).2, (h4 hf).1⟩⟩
  simpa using h1

/-- Witness for C7: two failures then a success return `true` with the
counter reset and delays 2000, 4000. -/
theorem testConnection_retry_policy_witness :
    testConnection 0 5 [false, false, true] =
      some (true, 0, [2000, 4000]) ∧
    ([2000, 4000] : List Nat) =
      (List.range ([2000, 4000] : List Nat).length).map
        (fun k => 2000 * (k + 1)) :=
  ⟨by decide,
   (testConnection_retry_policy [false, false, true] true 0 [2000, 4000]
     (by decide)).2.1⟩

/-- C9: failure never resets the counter — a run that rethrows ends with
the counter equal to the maximum (5); afterwards every `testConnection`
call, also when reached through `healthCheck` or an auto-reconnect tick,
makes exactly one connection attempt (no delay) and rethrows on failure,
until an attempt succeeds and resets the counter to 0. -/
theorem testConnection_counter_stays_at_max :
    (∀ (attempts : List Bool) (ret : Nat) (ds : List Nat),
      testConnection 0 5 attempts = some (false, ret, ds) → ret = 5) ∧
    (∀ rest : List Bool,
      testConnection 5 5 (false :: rest) = some (false, 5, [])) ∧
    (∀ rest : List Bool,
      testConnection 5 5 (true :: rest) = some (true, 0, [])) ∧
    (∀ (rest : List Bool) (probe : Bool),
      healthCheck false 5 5 (false :: rest) probe =
        some (false, false, 5, [])) ∧
    (∀ rest : List Bool,
      healthCheck false 5 5 (true :: rest) true =
        some (true, true, 0, [])) ∧
    (∀ rest : List Bool,
      reconnectTick false 5 5 (false :: rest) = some (false, 5, [])) ∧
    (∀ rest : List Bool,
      reconnectTick false 5 5 (true :: rest) = some (true, 0, [])) := by
  refine ⟨?_, fun rest => rfl, fun rest => rfl, fun rest probe => rfl,
          fun rest => rfl, fun rest => rfl, fun rest => rfl⟩
  intro attempts ret ds h
  exact ((testConnection_run 5 attempts 0 false ret ds (by omega) h).2.2.2
    rfl).1

/-- Witness for C9: an exhausted run ends at counter 5, and at the cap a
single failing attempt rethrows immediately while a single success
resets to 0. -/
theorem testConnection_counter_stays_at_max_witness :
    (5 : Nat) = 5 ∧
    testConnection 5 5 [false] = some (false, 5, []) ∧
    healthCheck false 5 5 [true] true = some (true, true, 0, []) :=
  ⟨testConnection_counter_stays_at_max.1
      [false, false, false, false, false, false] 5
      [2000, 4000, 6000, 8000, 10000] (by decide),
   testConnection_counter_stays_at_max.2.1 [],
   testConnection_counter_stays_at_max.2.2.2.2.1 []⟩
